import Mathlib

/-!
Shallow embedding of the `torchlft` repository excerpt
(`torchlft/lattice/scalar/layers.py`, `torchlft/observables.py`,
`torchlft/nflow/utils.py`, `torchlft/scalar/flows/coupling.py`)
and proofs about it.

Tensors are embedded as index functions into `ℝ`; a rank-4 lattice batch
`(batch, L, T, channel)` becomes `Nat → Nat → Nat → Nat → ℝ`.  Python
exceptions are embedded with `Except PyError`; in-place tensor mutation
(trailing-underscore methods) is embedded by explicit state passing of the
mutated tensor's shape.  External conditioner networks and elementwise
transform modules (whose sources are outside this excerpt) are abstracted
as function parameters, exactly where the layer code receives them as
constructor arguments.
-/

namespace Torchlft

/-- Python runtime errors relevant to this excerpt. -/
inductive PyError where
  | assertionError : PyError
  | valueError : String → PyError
  | nameError : String → PyError
  deriving DecidableEq, Repr

/-- Modelled from the spec: `checkerboard_mask` (torchlft.utils.lattice, whose
source is not in this excerpt) colors a 2D grid in a checkerboard pattern with
a parity offset: position `(i, j)` is on iff `i + j + offset` is even. -/
def checkerboard_mask (offset i j : Nat) : Bool :=
  (i + j + offset) % 2 == 0

/-- Modelled from the spec: `Checkerboard2d` (torchlft.nflow.partition, whose
source is not in this excerpt) returns complementary boolean active/frozen
masks over the `(L, T)` sites, alternated by the parity of `partition_id`.
This is the active mask at site `(i, j)`. -/
def activeMask (partition_id i j : Nat) : Bool :=
  (i + j + partition_id) % 2 == 0

/-- The frozen mask produced by `Checkerboard2d`: the complement of the active
mask (the spec requires the two masks to be disjoint and jointly complete). -/
def frozenMask (partition_id i j : Nat) : Bool :=
  !(activeMask partition_id i j)

/-- Row-major enumeration of the sites of an `L × T` lattice, the order in
which boolean-mask fancy indexing (`x[:, mask]`) flattens selected sites. -/
def siteList (L T : Nat) : List (Nat × Nat) :=
  (List.range L).flatMap (fun i => (List.range T).map (fun j => (i, j)))

/-- The row-major list of active sites of the checkerboard partition, i.e. the
sites selected by `x[:, active_mask]`. -/
def activeSites (partition_id L T : Nat) : List (Nat × Nat) :=
  (siteList L T).filter (fun p => activeMask partition_id p.1 p.2)

/-- Index of the first occurrence of a site in a site list (the position a
site's value occupies after boolean-mask selection), `none` if absent. -/
def idxOfSite : List (Nat × Nat) → (Nat × Nat) → Option Nat
  | [], _ => none
  | s :: rest, p => if s = p then some 0 else (idxOfSite rest p).map (· + 1)

/-- Boolean-mask read `φ[:, mask]` on a rank-4 tensor: result is indexed by
(batch, position-in-selection, channel). Out-of-range reads give 0. -/
def maskedSelect (φ : Nat → Nat → Nat → Nat → ℝ) (sites : List (Nat × Nat)) :
    Nat → Nat → Nat → ℝ :=
  fun b k c =>
    match sites.get? k with
    | some s => φ b s.1 s.2 c
    | none => 0

/-- Boolean-mask write `out[:, mask] = vals` performed on a fresh copy of
`φ` (the layers do `φ_out = φ_in.clone()` first, so the input itself is
never written to): at a selected site the written value appears, at every
other site the copied input value remains. -/
def maskedScatter (φ : Nat → Nat → Nat → Nat → ℝ) (sites : List (Nat × Nat))
    (vals : Nat → Nat → Nat → ℝ) : Nat → Nat → Nat → Nat → ℝ :=
  fun b i j c =>
    match idxOfSite sites (i, j) with
    | some k => vals b k c
    | none => φ b i j c

/-- Embedding of `ConvCouplingLayer.forward` (layers.py lines 133-147).
`spatial_net` and `transform` are the externally supplied conditioner network
and univariate transform module; `transform context actives` returns the
transformed active values together with the log-det column. -/
def ConvCouplingForward (layer_id L T : Nat)
    (spatial_net : (Nat → Nat → Nat → Nat → ℝ) → (Nat → Nat → Nat → Nat → ℝ))
    (transform : (Nat → Nat → Nat → ℝ) → (Nat → Nat → Nat → ℝ) →
      (Nat → Nat → Nat → ℝ) × (Nat → ℝ))
    (φ_in : Nat → Nat → Nat → Nat → ℝ) :
    (Nat → Nat → Nat → Nat → ℝ) × (Nat → ℝ) :=
  let net_inputs : Nat → Nat → Nat → Nat → ℝ :=
    fun b i j c => (if frozenMask layer_id i j then (1 : ℝ) else 0) * φ_in b i j c
  let sites := activeSites layer_id L T
  let context := maskedSelect (spatial_net net_inputs) sites
  let res := transform context (maskedSelect φ_in sites)
  (maskedScatter φ_in sites res.1, res.2)

/-- Embedding of the neighbour-offset derivation in `CouplingLayer.__init__`
(layers.py lines 164-176): offsets `(dx, dy)` of a `K × K` window,
`K = 2 * radius + 1`, laid out with `indexing="xy"` (so the grid entry at row
`i`, column `j` is `(j - radius, i - radius)`), boolean-selected in row-major
order by the offset-1 checkerboard pattern trimmed to `K × K`, and stored as
`self.shifts` via `tolist()`. -/
def couplingShifts (radius : Nat) : List (ℤ × ℤ) :=
  let K := 2 * radius + 1
  (List.range K).flatMap (fun i =>
    ((List.range K).filter (fun j => checkerboard_mask 1 i j)).map
      (fun j => ((j : ℤ) - (radius : ℤ), (i : ℤ) - (radius : ℤ))))

/-- Embedding of `torch.roll(x, (dx, dy), dims=(1, 2))` on a rank-4 tensor:
the output at lattice site `(i, j)` is the input at `((i - dx) mod L,
(j - dy) mod T)`. -/
def roll2 (L T : Nat) (φ : Nat → Nat → Nat → Nat → ℝ) (dx dy : ℤ) :
    Nat → Nat → Nat → Nat → ℝ :=
  fun b i j c =>
    φ b (((i : ℤ) - dx).emod (L : ℤ)).toNat (((j : ℤ) - dy).emod (T : ℤ)).toNat c

/-- Embedding of `torch.cat([context.roll(shift, (1, 2)) for shift in shifts],
dim=-1)` for a tensor with `C` channels: output channel `c` reads channel
`c % C` of the copy rolled by shift number `c / C`. -/
def stackShifted (L T C : Nat) (shifts : List (ℤ × ℤ))
    (φ : Nat → Nat → Nat → Nat → ℝ) : Nat → Nat → Nat → Nat → ℝ :=
  fun b i j c =>
    match shifts.get? (c / C) with
    | some s => roll2 L T φ s.1 s.2 b i j (c % C)
    | none => 0

/-- Embedding of the radius `CouplingLayer.forward` (layers.py lines 185-211):
frozen-mask the input, stack the periodically rolled copies given by
`self.shifts` along the channel axis, select the stacked context and the input
values at active sites, transform the active values, and write the results
into a clone of the input at active sites only. -/
def CouplingForward (layer_id radius L T C : Nat)
    (transform : (Nat → Nat → Nat → ℝ) → (Nat → Nat → Nat → ℝ) →
      (Nat → Nat → Nat → ℝ) × (Nat → ℝ))
    (φ_in : Nat → Nat → Nat → Nat → ℝ) :
    (Nat → Nat → Nat → Nat → ℝ) × (Nat → ℝ) :=
  let context0 : Nat → Nat → Nat → Nat → ℝ :=
    fun b i j c => (if frozenMask layer_id i j then (1 : ℝ) else 0) * φ_in b i j c
  let context := stackShifted L T C (couplingShifts radius) context0
  let sites := activeSites layer_id L T
  let res := transform (maskedSelect context sites) (maskedSelect φ_in sites)
  (maskedScatter φ_in sites res.1, res.2)

/-- Embedding of `UpscalingLayer.forward` (layers.py lines 215-220): after the
`n % 4 == 0` assertion the function body ends with only a TODO comment, so
Python falls off the end and returns `None` — embedded as `Except.ok none`,
while an assertion failure is `Except.error`. -/
def UpscalingForward (n : Nat) (φ_in : Nat → Nat → Nat → Nat → ℝ) :
    Except PyError (Option ((Nat → Nat → Nat → Nat → ℝ) × (Nat → ℝ))) :=
  if n % 4 = 0 then Except.ok none else Except.error PyError.assertionError

/-- PyTorch `softplus(x, beta)`: `(1 / beta) * log (1 + exp (beta * x))`. -/
noncomputable def softplus (beta x : ℝ) : ℝ :=
  (1 / beta) * Real.log (1 + Real.exp (beta * x))

/-- Embedding of `GlobalRescalingLayer.forward` (layers.py lines 24-28) for a
batch of `B` samples with `N` elements each (`N = z[0].numel()`); the raw
parameter `self.scale` is `scale`.  Returns the rescaled tensor and the
log-det column of shape `(B, 1)`, one entry per sample. -/
noncomputable def GlobalRescalingForward (scale : ℝ) (N : Nat)
    (z : Nat → Nat → ℝ) : (Nat → Nat → ℝ) × (Nat → ℝ) :=
  let σ := softplus (Real.log 2) scale
  (fun b i => σ * z b i, fun _b => Real.log σ * (N : ℝ))

/-- Embedding of `torch.tensor_split(row, 2)` along the feature axis: the
first section gets `⌈D / 2⌉` features, the second the rest. -/
def tensor_split2 {α : Type} (row : List α) : List α × List α :=
  let k := (row.length + 1) / 2
  (row.take k, row.drop k)

/-- Embedding of `DenseCouplingLayer.split` (layers.py lines 87-92) on a
rank-2 batch (list of feature rows): halve the feature axis, swapping the
(active, passive) roles when `layer_id` is odd. -/
def DenseSplit {α : Type} (layer_id : Nat) (φ_in : List (List α)) :
    List (List α) × List (List α) :=
  let φ_A := φ_in.map (fun row => (tensor_split2 row).1)
  let φ_B := φ_in.map (fun row => (tensor_split2 row).2)
  if layer_id % 2 = 1 then (φ_B, φ_A) else (φ_A, φ_B)

/-- Embedding of `DenseCouplingLayer.join` (layers.py lines 94-98):
concatenate the halves back along the feature axis in the order matching the
split rule for the parity of `layer_id`. -/
def DenseJoin {α : Type} (layer_id : Nat) (φ_a φ_p : List (List α)) :
    List (List α) :=
  if layer_id % 2 = 1 then List.zipWith (· ++ ·) φ_p φ_a
  else List.zipWith (· ++ ·) φ_a φ_p

/-- Embedding of `observables.autocorrelation` (observables.py lines 16-41) at
the level of control flow on the input's shape.  The `assert
observable.dim() > 0` runs first; the next statement,
`observable = observabe.movedim(0, -1).contiguous()` (line 22), reads the name
`observabe`, which is bound nowhere (the parameter is spelled `observable`),
so a `NameError` is raised there and no later line of the function can
execute.  The unreachable remainder (padding, conv1d autocovariance, lag-0
normalisation) is therefore not modelled. -/
def autocorrelation (shape : List Nat) : Except PyError Unit :=
  if 0 < shape.length then Except.error (PyError.nameError "observabe")
  else Except.error PyError.assertionError

/-- Embedding of `torch.squeeze_(dim=0)` on a shape: the leading axis is
removed only when it has size 1 (otherwise the tensor is left unchanged). -/
def squeeze0 : List Nat → List Nat
  | 1 :: rest => rest
  | shape => shape

/-- Embedding of `_Observables.__init__` (observables.py lines 45-83) at the
level of the caller's tensor shape.  The reducer `func` and the random
bootstrap indices are abstract and total, so construction succeeds exactly
when no exception is raised.  In-place mutation of the caller's tensor
(`samples.unsqueeze_(dim=0)` at line 58 and `samples.squeeze_(dim=0)` at
line 78) is embedded by explicit state passing: the returned shape is the
shape of the caller's `samples` tensor after `__init__` returns.
Control flow in source order: the replica/bootstrap `ValueError` (lines
52-55), the in-place unsqueeze (lines 57-58), the shape unpacking
`n_replica, n_sample, lattice_L, lattice_T, *_ = samples.shape` (line 60,
a `ValueError` when fewer than four axes are present), the `assert
n_sample > 1` (line 62), and the in-place squeeze on the bootstrap path
(lines 77-78). -/
def observablesInit (shape : List Nat) (contains_replicas : Bool)
    (n_bootstrap : Option Nat) : Except PyError (List Nat) :=
  if contains_replicas = true ∧ n_bootstrap ≠ none then
    Except.error (PyError.valueError "Bootstrapping only supported for a single sample")
  else
    let shape1 := if contains_replicas then shape else 1 :: shape
    match shape1 with
    | _n_replica :: n_sample :: _lattice_L :: _lattice_T :: _rest =>
      if 1 < n_sample then
        Except.ok (if n_bootstrap ≠ none then squeeze0 shape1 else shape1)
      else Except.error PyError.assertionError
    | _ => Except.error (PyError.valueError "not enough values to unpack")

/-- The sample count `n_sample` that `_Observables.__init__` reads from the
(possibly unsqueezed) shape: the second axis. -/
def nSampleOf (shape : List Nat) (contains_replicas : Bool) : Nat :=
  ((if contains_replicas then shape else 1 :: shape).getD 1 0)

/-- Embedding of `torch.std_mean(xs, dim=0, correction)` over the leading
axis of a stacked statistic: returns the pair (standard deviation with the
given correction, mean), in torch's (std, mean) order. -/
noncomputable def torchStdMean (correction : Nat) (xs : List ℝ) : ℝ × ℝ :=
  let n : ℝ := (xs.length : ℝ)
  let μ := xs.sum / n
  (Real.sqrt ((xs.map (fun x => (x - μ) ^ 2)).sum / (n - (correction : ℝ))), μ)

/-- Embedding of `OnePointObservables.value` (observables.py lines 87-89):
`reversed(torch.std_mean(self._computed, dim=0, correction=1))`, i.e. the
(std, mean) pair of the computed statistic across its leading
replica/bootstrap axis, yielded in reversed order (mean first). -/
noncomputable def OnePointValue (computed : List ℝ) : ℝ × ℝ :=
  let p := torchStdMean 1 computed
  (p.2, p.1)

/-- Mean written from the spec's words, for comparison with the code path. -/
noncomputable def specMean (xs : List ℝ) : ℝ := xs.sum / (xs.length : ℝ)

/-- Sample standard deviation with Bessel's correction (divisor `n - 1`),
written from the spec's words, for comparison with the code path. -/
noncomputable def specSampleStd (xs : List ℝ) : ℝ :=
  Real.sqrt ((xs.map (fun x => (x - specMean xs) ^ 2)).sum / ((xs.length : ℝ) - 1))

/-- A normalizing-flow model as `get_model_jacobian` consumes it.  `base` is
`Model.base` (coupling.py lines 88-100): a batch size gives the drawn base
samples together with the per-sample base action values `S_z`.
`flow_forward` (coupling.py lines 85-86) maps one sample through the composed
flow to (output, log-det). -/
structure NFModel (α β : Type) where
  base : Nat → List α × List ℝ
  flow_forward : α → β × ℝ

/-- Modelled from the spec: `Model.sample_base` comes from the generic model
base class (torchlft.nflow.model, whose source is not in this excerpt); per
the spec it draws a batch from the model's base (prior) distribution,
returning the samples together with the base action values — that is,
exactly what `Model.base` produces. -/
def NFModel.sample_base {α β : Type} (m : NFModel α β) (batch_size : Nat) :
    List α × List ℝ :=
  m.base batch_size

/-- Embedding of `get_jacobian` (nflow/utils.py lines 8-19).  The inner
`forward` returns the transform's first output twice, once to differentiate
and once as the `has_aux` value; `jacrev` — the external reverse-mode
Jacobian operator of the autodiff runtime — is abstracted as a parameter, and
`vmap` becomes a map over the per-sample list.  Returns (per-sample
Jacobians, the inputs, the transform outputs). -/
def get_jacobian {α β γ J : Type} (jacrev : (α → β) → α → J)
    (transform : α → β × γ) (inputs : List α) : List J × List α × List β :=
  let forward := fun x => ((transform x).1, (transform x).1)
  (inputs.map (fun x => jacrev (fun y => (forward y).1) x), inputs,
    inputs.map (fun x => (forward x).2))

/-- Embedding of `get_model_jacobian` (nflow/utils.py lines 22-25): draw a
base batch with `model.sample_base`, discard the accompanying action values,
and run `get_jacobian` on `model.flow_forward` at those samples. -/
def get_model_jacobian {α β J : Type} (jacrev : (α → β) → α → J)
    (model : NFModel α β) (batch_size : Nat) : List J × List α × List β :=
  let inputs := (model.sample_base batch_size).1
  get_jacobian jacrev model.flow_forward inputs

/-! ### Supporting lemmas -/

theorem idxOfSite_eq_none : ∀ (sites : List (Nat × Nat)) (p : Nat × Nat),
    p ∉ sites → idxOfSite sites p = none
  | [], _, _ => rfl
  | s :: rest, p, h => by
    have hs : ¬(s = p) := fun he => h (by rw [he]; exact List.mem_cons_self p rest)
    have hr : p ∉ rest := fun hm => h (List.mem_cons_of_mem s hm)
    unfold idxOfSite
    rw [if_neg hs, idxOfSite_eq_none rest p hr]
    rfl

theorem not_mem_activeSites {partition_id L T i j : Nat}
    (h : activeMask partition_id i j = false) :
    (i, j) ∉ activeSites partition_id L T := by
  intro hmem
  have h2 := (List.mem_filter.mp hmem).2
  rw [h] at h2
  exact Bool.false_ne_true h2

theorem maskedScatter_frozen (partition_id L T : Nat)
    (φ : Nat → Nat → Nat → Nat → ℝ) (vals : Nat → Nat → Nat → ℝ)
    (b i j c : Nat) (h : activeMask partition_id i j = false) :
    maskedScatter φ (activeSites partition_id L T) vals b i j c = φ b i j c := by
  unfold maskedScatter
  rw [idxOfSite_eq_none _ _ (not_mem_activeSites h)]

theorem zipWith_append_take_drop {α : Type} : ∀ (l : List (List α)),
    List.zipWith (· ++ ·) (l.map (fun row => (tensor_split2 row).1))
      (l.map (fun row => (tensor_split2 row).2)) = l
  | [] => rfl
  | row :: rest => by
    simp [tensor_split2, zipWith_append_take_drop rest]

/-! ### Claim theorems -/

/-- C2: for `GlobalRescalingLayer` with its raw scale parameter at its initial
value zero and every input batch `z`, `forward` returns an output exactly
equal to `z` and a log-det column whose every entry is `0`, because the
effective scale `softplus` with steepness `ln 2` at `0` equals `1`. -/
theorem globalRescaling_zero_is_identity (N : Nat) (z : Nat → Nat → ℝ) :
    softplus (Real.log 2) 0 = 1 ∧
    (GlobalRescalingForward 0 N z).1 = z ∧
    ∀ b, (GlobalRescalingForward 0 N z).2 b = 0 := by
  have hlog : Real.log 2 ≠ 0 := ne_of_gt (Real.log_pos one_lt_two)
  have hσ : softplus (Real.log 2) 0 = 1 := by
    unfold softplus
    rw [mul_zero, Real.exp_zero]
    have h2 : (1 : ℝ) + 1 = 2 := by norm_num
    rw [h2, one_div, inv_mul_cancel₀ hlog]
  refine ⟨hσ, ?_, ?_⟩
  · funext b i
    show softplus (Real.log 2) 0 * z b i = z b i
    rw [hσ, one_mul]
  · intro b
    show Real.log (softplus (Real.log 2) 0) * (N : ℝ) = 0
    rw [hσ, Real.log_one, zero_mul]

/-- C4: for the radius `CouplingLayer` constructed with `radius = 1`, the
derived neighbour-offset set `self.shifts` has exactly 4 members and equals
the four orthogonal unit offsets `(±1, 0)` and `(0, ±1)`, containing neither
the center offset `(0, 0)` nor any diagonal offset. -/
theorem couplingShifts_radius_one_orthogonal :
    couplingShifts 1 = [(0, -1), (-1, 0), (1, 0), (0, 1)] ∧
    (couplingShifts 1).length = 4 ∧
    (((1 : ℤ), (0 : ℤ)) ∈ couplingShifts 1 ∧ ((-1 : ℤ), (0 : ℤ)) ∈ couplingShifts 1 ∧
      ((0 : ℤ), (1 : ℤ)) ∈ couplingShifts 1 ∧ ((0 : ℤ), (-1 : ℤ)) ∈ couplingShifts 1) ∧
    (((0 : ℤ), (0 : ℤ)) ∉ couplingShifts 1 ∧ ((1 : ℤ), (1 : ℤ)) ∉ couplingShifts 1 ∧
      ((1 : ℤ), (-1 : ℤ)) ∉ couplingShifts 1 ∧ ((-1 : ℤ), (1 : ℤ)) ∉ couplingShifts 1 ∧
      ((-1 : ℤ), (-1 : ℤ)) ∉ couplingShifts 1) ∧
    (∀ p ∈ couplingShifts 1,
      p = ((1 : ℤ), (0 : ℤ)) ∨ p = (-1, 0) ∨ p = (0, 1) ∨ p = (0, -1)) := by
  decide

/-- C9 (divergence witness): `UpscalingLayer.forward` on a rank-4 input whose
channel count is a multiple of 4 returns `None` silently — it does not raise
any not-implemented failure — while a channel count that is not a multiple of
4 is rejected by the assertion. -/
theorem upscaling_silent_none :
    UpscalingForward 4 (fun _ _ _ _ => 0) = Except.ok none ∧
    UpscalingForward 5 (fun _ _ _ _ => 0) = Except.error PyError.assertionError :=
  ⟨rfl, rfl⟩

/-- C6: for every input tensor of positive dimension, `autocorrelation` fails
with an undefined-name error (`NameError` for the misspelled `observabe`) at
the axis rearrangement and never returns a result. -/
theorem autocorrelation_raises_nameError (shape : List Nat)
    (h : 0 < shape.length) :
    autocorrelation shape = Except.error (PyError.nameError "observabe") ∧
    ∀ r : Unit, autocorrelation shape ≠ Except.ok r := by
  refine ⟨by simp [autocorrelation, h], ?_⟩
  intro r hr
  simp [autocorrelation, h] at hr

theorem autocorrelation_raises_nameError_witness :
    0 < [5].length ∧
    (autocorrelation [5] = Except.error (PyError.nameError "observabe") ∧
      ∀ r : Unit, autocorrelation [5] ≠ Except.ok r) :=
  ⟨by decide, autocorrelation_raises_nameError [5] (by decide)⟩

/-- C3: for `DenseCouplingLayer` with any `layer_id` and every rank-2 input
with an even feature count, `join` is a left inverse of `split`: splitting
into (active, passive) halves — swapped when `layer_id` is odd — and joining
reassembles exactly the original tensor. -/
theorem denseCoupling_join_split_id {α : Type} (layer_id : Nat)
    (φ_in : List (List α)) (h : ∀ row ∈ φ_in, row.length % 2 = 0) :
    DenseJoin layer_id (DenseSplit layer_id φ_in).1 (DenseSplit layer_id φ_in).2 =
      φ_in := by
  unfold DenseSplit DenseJoin
  by_cases hp : layer_id % 2 = 1 <;>
    simp only [hp, if_true, if_false, reduceIte] <;>
    exact zipWith_append_take_drop φ_in

theorem denseCoupling_join_split_id_witness :
    (∀ row ∈ ([[1, 2, 3, 4]] : List (List ℤ)), row.length % 2 = 0) ∧
    DenseJoin 1 (DenseSplit 1 ([[1, 2, 3, 4]] : List (List ℤ))).1
      (DenseSplit 1 ([[1, 2, 3, 4]] : List (List ℤ))).2 = [[1, 2, 3, 4]] :=
  ⟨by decide, denseCoupling_join_split_id 1 [[1, 2, 3, 4]] (by decide)⟩

/-- C8: for every model and batch size, `get_model_jacobian` draws a batch
from the model's base (prior) distribution, discards the accompanying base
action values, and returns the result of `get_jacobian` on the model's
forward-flow map at those base samples: the per-sample Jacobians, the drawn
inputs, and the flow outputs.  The second conjunct states the discarding
explicitly: the result never depends on the action values the base draw
returns. -/
theorem get_model_jacobian_draws_base {α β J : Type}
    (jacrev : (α → β) → α → J) (model : NFModel α β) (batch_size : Nat) :
    get_model_jacobian jacrev model batch_size =
      ((model.sample_base batch_size).1.map
          (fun z => jacrev (fun y => (model.flow_forward y).1) z),
        (model.sample_base batch_size).1,
        (model.sample_base batch_size).1.map (fun z => (model.flow_forward z).1)) ∧
    ∀ (zs : Nat → List α) (S S2 : Nat → List ℝ) (f : α → β × ℝ),
      get_model_jacobian jacrev ⟨fun k => (zs k, S k), f⟩ batch_size =
        get_model_jacobian jacrev ⟨fun k => (zs k, S2 k), f⟩ batch_size :=
  ⟨rfl, fun _ _ _ _ => rfl⟩

theorem exists_cons4_of_four_le_length {l : List Nat} (h : 4 ≤ l.length) :
    ∃ a b c d rest, l = a :: b :: c :: d :: rest := by
  match l with
  | a :: b :: c :: d :: rest => exact ⟨a, b, c, d, rest, rfl⟩
  | [] => simp at h
  | [_] => simp at h
  | [_, _] => simp at h
  | [_, _, _] => simp at h

/-- C5 (counterexample): constructing `_Observables` with
`contains_replicas = true` and a bootstrap count raises `ValueError` with the
message `"Bootstrapping only supported for a single sample"` — not the
message the claim quotes. -/
theorem observablesInit_message_counterexample :
    observablesInit [2, 5, 4, 4] true (some 10) =
      Except.error
        (PyError.valueError "Bootstrapping only supported for a single sample") ∧
    "Bootstrapping only supported for a single sample" ≠
      "bootstrapping is only supported for a single, non-replica sample set" := by
  constructor
  · simp [observablesInit]
  · decide

/-- C5 (amended): on inputs of the documented shape (at least four axes after
the replica axis is accounted for), `_Observables` construction fails exactly
when `contains_replicas` and `n_bootstrap` are supplied together — raising
`ValueError` with the message `"Bootstrapping only supported for a single
sample"` — or when the per-replica sample count is not greater than 1; for
all other such inputs construction succeeds. -/
theorem observablesInit_fails_iff (shape : List Nat) (cr : Bool)
    (nb : Option Nat)
    (hdom : 4 ≤ (if cr then shape else 1 :: shape).length) :
    ((∃ s, observablesInit shape cr nb = Except.ok s) ↔
      ¬((cr = true ∧ nb ≠ none) ∨ nSampleOf shape cr ≤ 1)) ∧
    (cr = true → nb ≠ none →
      observablesInit shape cr nb =
        Except.error
          (PyError.valueError "Bootstrapping only supported for a single sample")) := by
  obtain ⟨a, b, c, d, rest, hl⟩ := exists_cons4_of_four_le_length hdom
  constructor
  · by_cases hc : cr = true ∧ nb ≠ none
    · simp [observablesInit, hc]
    · by_cases hb : 1 < b
      · simp [observablesInit, hc, hl, hb, nSampleOf]
      · simp [observablesInit, hc, hl, hb, nSampleOf]
  · intro h1 h2
    simp [observablesInit, h1, h2]

theorem observablesInit_fails_iff_witness :
    4 ≤ (if false then [5, 4, 4] else 1 :: [5, 4, 4]).length ∧
    (((∃ s, observablesInit [5, 4, 4] false none = Except.ok s) ↔
        ¬((false = true ∧ (none : Option Nat) ≠ none) ∨
          nSampleOf [5, 4, 4] false ≤ 1)) ∧
      (false = true → (none : Option Nat) ≠ none →
        observablesInit [5, 4, 4] false none =
          Except.error
            (PyError.valueError "Bootstrapping only supported for a single sample"))) :=
  ⟨by decide, observablesInit_fails_iff [5, 4, 4] false none (by decide)⟩

theorem observablesInit_ok_shape (shape : List Nat) (nb : Option Nat)
    (res : List Nat) (h : observablesInit shape false nb = Except.ok res) :
    res = if nb ≠ none then shape else 1 :: shape := by
  match shape with
  | [] => simp [observablesInit] at h
  | [x] => simp [observablesInit] at h
  | [x, y] => simp [observablesInit] at h
  | x :: y :: z :: rest =>
    by_cases hx : 1 < x
    · by_cases hb : nb ≠ none
      · simp [observablesInit, hx, hb, squeeze0] at h
        subst h
        simp [hb]
      · simp [observablesInit, hx, hb, squeeze0] at h
        subst h
        simp [hb]
    · simp [observablesInit, hx] at h

/-- C10: constructing an observable sample set with
`contains_replicas = false` mutates the caller's `samples` tensor in place:
after a successful construction with no bootstrapping the supplied tensor has
an extra leading replica axis of size 1 (so its caller-observed shape has
changed as a side effect), and when bootstrapping is enabled that axis is
removed again in place before construction returns. -/
theorem observablesInit_mutates_caller_shape (shape : List Nat)
    (nb : Option Nat) (res : List Nat)
    (h : observablesInit shape false nb = Except.ok res) :
    (nb = none → res = 1 :: shape ∧ res ≠ shape) ∧
    (∀ k, nb = some k → res = shape) := by
  have hres := observablesInit_ok_shape shape nb res h
  constructor
  · intro hn
    subst hn
    simp at hres
    subst hres
    refine ⟨rfl, fun heq => ?_⟩
    have := congrArg List.length heq
    simp at this
  · intro k hk
    subst hk
    simp at hres
    exact hres

theorem observablesInit_mutates_caller_shape_witness :
    observablesInit [5, 4, 4] false none = Except.ok [1, 5, 4, 4] ∧
    (((none : Option Nat) = none →
        [1, 5, 4, 4] = 1 :: [5, 4, 4] ∧ ([1, 5, 4, 4] : List Nat) ≠ [5, 4, 4]) ∧
      (∀ k : Nat, (none : Option Nat) = some k → ([1, 5, 4, 4] : List Nat) = [5, 4, 4])) :=
  ⟨by simp [observablesInit],
    observablesInit_mutates_caller_shape [5, 4, 4] none [1, 5, 4, 4]
      (by simp [observablesInit])⟩

/-- C7: `OnePointObservables.value` yields the pair (mean, sample standard
deviation with Bessel's correction, divisor `n - 1`) of the computed
statistic across its leading replica/bootstrap axis, mean first and standard
deviation second; on the literal series `[1, 2, 3, 4, 5]` it is
`(3, √(5/2))`, whose second component is within `10⁻⁵` of `1.58114`. -/
theorem onePoint_value_mean_then_std :
    (∀ computed : List ℝ,
      OnePointValue computed = (specMean computed, specSampleStd computed)) ∧
    OnePointValue [1, 2, 3, 4, 5] = (3, Real.sqrt (5 / 2)) ∧
    |Real.sqrt (5 / 2) - 1.58114| < 1 / 100000 := by
  refine ⟨?_, ?_, ?_⟩
  · intro computed
    simp [OnePointValue, torchStdMean, specMean, specSampleStd]
  · unfold OnePointValue torchStdMean
    norm_num
  · rw [abs_lt]
    constructor
    · have h1 : (1.58113 : ℝ) < Real.sqrt (5 / 2) := by
        rw [Real.lt_sqrt (by norm_num)]
        norm_num
      linarith
    · have h2 : Real.sqrt (5 / 2) < 1.58115 := by
        rw [Real.sqrt_lt' (by norm_num)]
        norm_num
      linarith

/-- C1: for `ConvCouplingLayer.forward` and the radius
`CouplingLayer.forward`, on every rank-4 input and for every externally
supplied conditioner network and transform module, the output agrees with the
input at every frozen (non-active) site position, and any position where the
output differs from the input is selected by the active mask.  The input
itself is never written: both layers write transformed values into
`φ_in.clone()` (see `maskedScatter`), so `φ_in` is left unmodified, as the
purely functional right-hand sides below record. -/
theorem coupling_layers_frozen_sites_unchanged (layer_id L T C radius : Nat)
    (spatial_net : (Nat → Nat → Nat → Nat → ℝ) → (Nat → Nat → Nat → Nat → ℝ))
    (transform transform2 : (Nat → Nat → Nat → ℝ) → (Nat → Nat → Nat → ℝ) →
      (Nat → Nat → Nat → ℝ) × (Nat → ℝ))
    (φ_in : Nat → Nat → Nat → Nat → ℝ) (b i j c : Nat)
    (h : frozenMask layer_id i j = true) :
    (ConvCouplingForward layer_id L T spatial_net transform φ_in).1 b i j c =
      φ_in b i j c ∧
    (CouplingForward layer_id radius L T C transform2 φ_in).1 b i j c =
      φ_in b i j c ∧
    (∀ b2 i2 j2 c2,
      (ConvCouplingForward layer_id L T spatial_net transform φ_in).1 b2 i2 j2 c2 ≠
        φ_in b2 i2 j2 c2 → activeMask layer_id i2 j2 = true) ∧
    (∀ b2 i2 j2 c2,
      (CouplingForward layer_id radius L T C transform2 φ_in).1 b2 i2 j2 c2 ≠
        φ_in b2 i2 j2 c2 → activeMask layer_id i2 j2 = true) := by
  have ha : activeMask layer_id i j = false := by
    simpa [frozenMask] using h
  refine ⟨maskedScatter_frozen _ _ _ _ _ _ _ _ _ ha,
    maskedScatter_frozen _ _ _ _ _ _ _ _ _ ha, ?_, ?_⟩
  · intro b2 i2 j2 c2 hne
    cases hma : activeMask layer_id i2 j2 with
    | true => rfl
    | false => exact absurd (maskedScatter_frozen _ _ _ _ _ b2 i2 j2 c2 hma) hne
  · intro b2 i2 j2 c2 hne
    cases hma : activeMask layer_id i2 j2 with
    | true => rfl
    | false => exact absurd (maskedScatter_frozen _ _ _ _ _ b2 i2 j2 c2 hma) hne

theorem coupling_layers_frozen_sites_unchanged_witness :
    frozenMask 0 0 1 = true ∧
    ((ConvCouplingForward 0 2 2 (fun x => x)
        (fun _ctx vals => (fun b2 k c2 => vals b2 k c2 + 1, fun _ => 0))
        (fun _ _ _ _ => 0)).1 0 0 1 0 = (fun _ _ _ _ => (0 : ℝ)) 0 0 1 0 ∧
      (CouplingForward 0 1 2 2 1
        (fun _ctx vals => (fun b2 k c2 => vals b2 k c2 + 1, fun _ => 0))
        (fun _ _ _ _ => 0)).1 0 0 1 0 = (fun _ _ _ _ => (0 : ℝ)) 0 0 1 0 ∧
      (∀ b2 i2 j2 c2,
        (ConvCouplingForward 0 2 2 (fun x => x)
          (fun _ctx vals => (fun b3 k c3 => vals b3 k c3 + 1, fun _ => 0))
          (fun _ _ _ _ => 0)).1 b2 i2 j2 c2 ≠ (fun _ _ _ _ => (0 : ℝ)) b2 i2 j2 c2 →
        activeMask 0 i2 j2 = true) ∧
      (∀ b2 i2 j2 c2,
        (CouplingForward 0 1 2 2 1
          (fun _ctx vals => (fun b3 k c3 => vals b3 k c3 + 1, fun _ => 0))
          (fun _ _ _ _ => 0)).1 b2 i2 j2 c2 ≠ (fun _ _ _ _ => (0 : ℝ)) b2 i2 j2 c2 →
        activeMask 0 i2 j2 = true)) :=
  ⟨by decide,
    coupling_layers_frozen_sites_unchanged 0 2 2 1 1 (fun x => x)
      (fun _ctx vals => (fun b2 k c2 => vals b2 k c2 + 1, fun _ => 0))
      (fun _ctx vals => (fun b2 k c2 => vals b2 k c2 + 1, fun _ => 0))
      (fun _ _ _ _ => 0) 0 0 1 0 (by decide)⟩

end Torchlft
